import Mathlib

/-!
Shallow embedding of `tensorflow_lite_support/cc/task/processor/text_preprocessor.cc`
(commit as shipped in this repository).

The file models the `TextPreprocessor` class: its committed tokenizer variant,
its tokenizer member (`tokenizer_`, a `std::unique_ptr` modelled as `Option`),
the Bert and Regex encoders, the shape/type validation done in `Init` and
`TryFindRegexTokenizerMetadata`, and the `Preprocess` dispatch.  Machine
integers are `Int` with the `static_cast<size_t>` conversions made explicit
(`sizeTCast`, reduction modulo 2^64).  Tensors (`TfLiteTensor`) keep only the
fields the source reads: name, element type and `dims`.

The tokenizer implementations themselves are external collaborators of the
source file; they are modelled as a record of the capabilities the source
invokes through the `Tokenizer` / `RegexTokenizer` interfaces:
`Tokenize`, `LookupId` (an out-parameter call returning `bool`, modelled as
`Option Int`; per the observed behaviour a failed lookup leaves the
out-parameter untouched), `GetUnknownToken`, `GetPadToken`, `GetStartToken`.
-/

/-- The capabilities of the external tokenizer that
`text_preprocessor.cc` invokes.  `lookupId w = some v` models
`LookupId(w, &out)` returning `true` and storing `v`; `none` models a
`false` return that leaves the out-parameter untouched.  The three
`Get*Token` accessors similarly return `bool` plus an out-parameter. -/
structure Tokenizer where
  tokenize : String → List String
  lookupId : String → Option Int
  unknownToken : Option Int
  padToken : Option Int
  startToken : Option Int

/-- `constexpr char kClassificationToken[] = "[CLS]"`. -/
def kClassificationToken : String := "[CLS]"

/-- `constexpr char kSeparator[] = "[SEP]"`. -/
def kSeparator : String := "[SEP]"

/-- `static_cast<size_t>` applied to a C `int` value: reduction modulo 2^64
(the source runs on LP64, where `size_t` is 64 bits wide). -/
def sizeTCast (x : Int) : Nat := (x % (2 ^ 64 : Int)).toNat

/-- `absl::AsciiStrToLower`: lowercase the ASCII letters of the string
(`Char.toLower` only affects ASCII uppercase letters). -/
def asciiStrToLower (s : String) : String := s.map Char.toLower

/-- The token sequence built by `TextPreprocessor::BertPreprocess`
(lines 172-194): lowercase the input, tokenize it, keep the first
`min(static_cast<size_t>(bert_max_seq_len_ - 2), subwords.size())`
subwords, and wrap them in `[CLS]` / `[SEP]`. -/
def bertTokens (tok : Tokenizer) (bert_max_seq_len : Int) (input_text : String) :
    List String :=
  let processed_input := asciiStrToLower input_text
  let subwords := tok.tokenize processed_input
  let query_tokens := subwords.take (sizeTCast (bert_max_seq_len - 2))
  [kClassificationToken] ++ query_tokens ++ [kSeparator]

/-- The loop of `TextPreprocessor::BertPreprocess` lines 199-202:
`for (int i = 0; i < tokens.size(); ++i) { tokenizer_->LookupId(tokens[i],
&input_ids[i]); input_mask[i] = 1; }`.  A failed lookup leaves
`input_ids[i]` untouched. `List.set` out of range is a no-op; the indices
the C++ loop writes are exactly `0, …, tokens.length - 1` (see the safety
claims for their in-boundedness). -/
def bertFillLoop (tok : Tokenizer) :
    List String → Nat → List Int → List Int → List Int × List Int
  | [], _, input_ids, input_mask => (input_ids, input_mask)
  | token :: rest, i, input_ids, input_mask =>
    let input_ids' :=
      match tok.lookupId token with
      | some v => input_ids.set i v
      | none => input_ids
    bertFillLoop tok rest (i + 1) input_ids' (input_mask.set i 1)

/-- `TextPreprocessor::BertPreprocess` (lines 164-213), as the triple of
arrays `(input_ids, input_mask, segment_ids)` it populates into the three
tensors.  All three vectors are constructed with size
`bert_max_seq_len_` (converted to `size_t`) and zero-filled. -/
def BertPreprocess (tok : Tokenizer) (bert_max_seq_len : Int) (input_text : String) :
    List Int × List Int × List Int :=
  let tokens := bertTokens tok bert_max_seq_len input_text
  let input_ids : List Int := List.replicate (sizeTCast bert_max_seq_len) 0
  let input_mask : List Int := List.replicate (sizeTCast bert_max_seq_len) 0
  let filled := bertFillLoop tok tokens 0 input_ids input_mask
  (filled.1, filled.2, List.replicate (sizeTCast bert_max_seq_len) 0)

/-- The loop of `TextPreprocessor::RegexPreprocess` lines 244-254:
`for (size_t i = 0; i < result.subwords.size() && input_token_index <
max_sentence_length; ++i, ++input_token_index)` writing each subword's
vocabulary id, or `unknown_token_id` when `LookupId` fails, at
`input_tokens[input_token_index]`. -/
def regexLoop (tok : Tokenizer) (unknown_token_id : Int) (max_sentence_length : Nat) :
    List String → Nat → List Int → List Int
  | [], _, input_tokens => input_tokens
  | token :: rest, input_token_index, input_tokens =>
    if input_token_index < max_sentence_length then
      let token_id : Int :=
        match tok.lookupId token with
        | some v => v
        | none => unknown_token_id
      regexLoop tok unknown_token_id max_sentence_length rest
        (input_token_index + 1) (input_tokens.set input_token_index token_id)
    else input_tokens

/-- `TextPreprocessor::RegexPreprocess` (lines 215-256) restricted to the
array it computes: pre-fill with `pad_token_id`, optionally place
`start_token_id` at position 0, then run the subword loop.
`GetUnknownToken` / `GetPadToken` leave their out-parameter at the
initial `0` when they fail. -/
def regexEncode (tok : Tokenizer) (max_sentence_length : Nat) (input_text : String) :
    List Int :=
  let result := tok.tokenize input_text
  let unknown_token_id : Int := tok.unknownToken.getD 0
  let pad_token_id : Int := tok.padToken.getD 0
  let input_tokens : List Int := List.replicate max_sentence_length pad_token_id
  match tok.startToken with
  | some start_token_id =>
    regexLoop tok unknown_token_id max_sentence_length result 1
      (input_tokens.set 0 start_token_id)
  | none =>
    regexLoop tok unknown_token_id max_sentence_length result 0 input_tokens

/-- `size_t max_sentence_length = input_tensor->dims->size == 2 ?
input_tensor->dims->data[1] : input_tensor->dims->data[0]`
(lines 226-228). -/
def maxSentenceLength (dims : List Int) : Nat :=
  if dims.length = 2 then sizeTCast (dims.getD 1 0) else sizeTCast (dims.getD 0 0)

/-- `TextPreprocessor::GetLastDimSize` (lines 286-289):
`tensor->dims->data[tensor->dims->size - 1]`. -/
def GetLastDimSize (dims : List Int) : Int := dims.getD (dims.length - 1) 0

/-- Payload of the shape-mismatch status built in `Init` lines 135-143;
the `StrFormat` message cites the three measured last-dimension sizes,
modelled here as structured fields. -/
structure ShapeMismatchError where
  ids_len : Int
  mask_len : Int
  segment_ids_len : Int
  deriving DecidableEq, Repr

/-- The Bert branch of `TextPreprocessor::Init` (lines 131-145) restricted
to its shape validation: compare the last-dimension sizes of the three
resolved tensors and either fail with a shape-mismatch error citing all
three, or store the shared value into `bert_max_seq_len_`. -/
def bertInitSeqLen (ids_dims mask_dims segment_ids_dims : List Int) :
    Except ShapeMismatchError Int :=
  if GetLastDimSize ids_dims ≠ GetLastDimSize mask_dims ∨
      GetLastDimSize ids_dims ≠ GetLastDimSize segment_ids_dims then
    .error ⟨GetLastDimSize ids_dims, GetLastDimSize mask_dims,
            GetLastDimSize segment_ids_dims⟩
  else
    .ok (GetLastDimSize ids_dims)

/-- The TfLite element types distinguished by the source. -/
inductive TfLiteType where
  | kTfLiteString
  | kTfLiteInt32
  | kTfLiteFloat32
  | kTfLiteUInt8
  | kTfLiteInt64
  deriving DecidableEq, Repr

/-- The fields of `TfLiteTensor` that `text_preprocessor.cc` reads. -/
structure TfLiteTensor where
  name : String
  type : TfLiteType
  dims : List Int

/-- Opaque stand-in for `tflite::TensorMetadata`. -/
structure TensorMetadata where
  id : Nat
  deriving DecidableEq

/-- Opaque stand-in for `tflite::ProcessUnit` (the tokenizer options block). -/
structure ProcessUnit where
  id : Nat
  deriving DecidableEq

/-- Errors produced (or propagated) by `TryFindRegexTokenizerMetadata`:
the `kInvalidArgument` type-mismatch status of lines 274-281, whose
`StrCat` message names the input tensor and its actual type (modelled as
structured fields), or an upstream error propagated from
`FindFirstProcessUnit` by `ASSIGN_OR_RETURN`. -/
inductive InitError where
  | typeMismatch (tensorName : String) (actual : TfLiteType)
  | upstream (msg : String)
  deriving DecidableEq, Repr

/-- `TextPreprocessor::TryFindRegexTokenizerMetadata` (lines 258-284).
`tensor_metadata` is `GetTensorMetadata()` (null when no metadata is
attached); `findFirstProcessUnit` is the metadata extractor's
`FindFirstProcessUnit(·, ProcessUnitOptions_RegexTokenizerOptions)`;
`input_tensor` is `GetTensor()`. -/
def TryFindRegexTokenizerMetadata
    (tensor_metadata : Option TensorMetadata)
    (findFirstProcessUnit : TensorMetadata → Except String (Option ProcessUnit))
    (input_tensor : TfLiteTensor) :
    Except InitError (Option ProcessUnit) :=
  match tensor_metadata with
  | none => .ok none
  | some md =>
    match findFirstProcessUnit md with
    | .error e => .error (.upstream e)
    | .ok tokenizer_metadata =>
      match tokenizer_metadata with
      | some pu =>
        if input_tensor.type ≠ TfLiteType.kTfLiteInt32 then
          .error (.typeMismatch input_tensor.name input_tensor.type)
        else .ok (some pu)
      | none => .ok none

/-- `TextPreprocessor::TokenizerType` (the source spells the member
`tokenzier_type_`). -/
inductive TokenizerType where
  | kNone
  | kRegex
  | kBert
  deriving DecidableEq, Repr

/-- The mutable state of a `TextPreprocessor` instance that `Preprocess`
reads and writes: the committed variant, the owned tokenizer
(`std::unique_ptr<Tokenizer> tokenizer_`; `none` models null), the cached
Bert sequence length, the dims of the single Regex/passthrough input
tensor, and the writable contents of the managed buffers. -/
structure PreprocessorState where
  tokenzier_type_ : TokenizerType
  tokenizer_ : Option Tokenizer
  bert_max_seq_len_ : Int
  regex_dims : List Int
  string_buf : String
  regex_buf : List Int
  ids_buf : List Int
  mask_buf : List Int
  segment_ids_buf : List Int

/-- Runtime failures of a `Preprocess` call in the model: dereferencing
a null `tokenizer_` (undefined behaviour in the C++, surfaced as an
explicit error here), or the defensive `kInternal` fallback of
`Preprocess` lines 86-89. -/
inductive RuntimeError where
  | nullTokenizerDeref
  | internalUnsupportedType
  deriving DecidableEq, Repr

/-- `TextPreprocessor::RegexPreprocess` (lines 215-256) as a state
transition.  Line 217-218 `std::unique_ptr<RegexTokenizer>(
dynamic_cast<RegexTokenizer*>(tokenizer_.release()))` moves the tokenizer
out of the member into a scope-local owner, so the member is null
afterwards and the tokenizer is destroyed when the call returns; calling
`Tokenize` through a null pointer is the modelled error. -/
def RegexPreprocessSt (s : PreprocessorState) (input_text : String) :
    Except RuntimeError PreprocessorState :=
  match s.tokenizer_ with
  | none => .error .nullTokenizerDeref
  | some regex_tokenizer =>
    let s' := { s with tokenizer_ := none }
    let max_sentence_length := maxSentenceLength s.regex_dims
    let input_tokens := regexEncode regex_tokenizer max_sentence_length input_text
    .ok { s' with regex_buf := input_tokens }

/-- `TextPreprocessor::BertPreprocess` (lines 164-213) as a state
transition; `tokenizer_` is only read through, never released. -/
def BertPreprocessSt (s : PreprocessorState) (input_text : String) :
    Except RuntimeError PreprocessorState :=
  match s.tokenizer_ with
  | none => .error .nullTokenizerDeref
  | some tok =>
    let filled := BertPreprocess tok s.bert_max_seq_len_ input_text
    .ok { s with ids_buf := filled.1, mask_buf := filled.2.1,
                 segment_ids_buf := filled.2.2 }

/-- `TextPreprocessor::Preprocess` (lines 75-90): dispatch on the
committed `tokenzier_type_`.  The `kNone` case is
`PopulateTensor(input_text, GetTensor())`. -/
def Preprocess (s : PreprocessorState) (input_text : String) :
    Except RuntimeError PreprocessorState :=
  match s.tokenzier_type_ with
  | .kNone => .ok { s with string_buf := input_text }
  | .kRegex => RegexPreprocessSt s input_text
  | .kBert => BertPreprocessSt s input_text

/-! ### Concrete instances used in witnesses and counterexamples -/

/-- The regex tokenizer of the spec's worked example: `start_id = 7`,
`pad_id = 3`, `unknown_id = 9`, vocabulary `t1 ↦ 11`, `t3 ↦ 13`
(`t2` unknown); every input tokenizes to `[t1, t2, t3]`. -/
def exRegexTok : Tokenizer where
  tokenize := fun _ => ["t1", "t2", "t3"]
  lookupId := fun w => if w = "t1" then some 11 else if w = "t3" then some 13 else none
  unknownToken := some 9
  padToken := some 3
  startToken := some 7

/-- A Bert-style tokenizer: every input tokenizes to seven subwords
`[a, …, g]`; `[CLS] ↦ 101`, `[SEP] ↦ 102`, `a ↦ 21`, the rest unknown. -/
def exBertTok : Tokenizer where
  tokenize := fun _ => ["a", "b", "c", "d", "e", "f", "g"]
  lookupId := fun w =>
    if w = "[CLS]" then some 101
    else if w = "[SEP]" then some 102
    else if w = "a" then some 21
    else none
  unknownToken := some 100
  padToken := some 0
  startToken := none

/-- A freshly initialized Regex-variant preprocessor: committed variant
`kRegex`, owned tokenizer `exRegexTok`, one input tensor of shape
`[1, 5]`. -/
def regexState0 : PreprocessorState where
  tokenzier_type_ := .kRegex
  tokenizer_ := some exRegexTok
  bert_max_seq_len_ := 0
  regex_dims := [1, 5]
  string_buf := ""
  regex_buf := List.replicate 5 0
  ids_buf := []
  mask_buf := []
  segment_ids_buf := []

/-- The state of `regexState0` after one `Preprocess` call: the buffer is
filled, and `tokenizer_` has been released (null). -/
def regexState1 : PreprocessorState :=
  { regexState0 with tokenizer_ := none, regex_buf := [7, 11, 9, 13, 3] }

/-! ### Helper lemmas -/

theorem sizeTCast_of_nonneg {x : Int} (h0 : 0 ≤ x) (h1 : x < 2 ^ 64) :
    sizeTCast x = x.toNat := by
  unfold sizeTCast
  rw [Int.emod_eq_of_lt h0 h1]

theorem getD_set_char (l : List Int) (i j : Nat) (a : Int) :
    (l.set i a).getD j 0 = if i = j ∧ i < l.length then a else l.getD j 0 := by
  rw [List.getD_eq_getElem?_getD, List.getD_eq_getElem?_getD, List.getElem?_set]
  by_cases h : i = j
  · subst h
    by_cases h2 : i < l.length
    · simp [h2]
    · simp [h2, List.getElem?_eq_none (Nat.le_of_not_lt h2)]
  · simp [h]

theorem bertFillLoop_fst_length (tok : Tokenizer) (tokens : List String) :
    ∀ (i : Nat) (ids mask : List Int),
      (bertFillLoop tok tokens i ids mask).1.length = ids.length := by
  induction tokens with
  | nil => intro i ids mask; rfl
  | cons t rest ih =>
    intro i ids mask
    rw [bertFillLoop]
    cases h : tok.lookupId t <;> simp [h, ih, List.length_set]

theorem bertFillLoop_snd_length (tok : Tokenizer) (tokens : List String) :
    ∀ (i : Nat) (ids mask : List Int),
      (bertFillLoop tok tokens i ids mask).2.length = mask.length := by
  induction tokens with
  | nil => intro i ids mask; rfl
  | cons t rest ih =>
    intro i ids mask
    rw [bertFillLoop]
    cases h : tok.lookupId t <;> simp [h, ih, List.length_set]

/-- The mask written by the Bert loop: position `j` holds `1` exactly when
the loop reaches it (`i ≤ j < i + tokens.length`, in bounds), and keeps
the initial value otherwise. -/
theorem bertFillLoop_snd_getD (tok : Tokenizer) (tokens : List String) :
    ∀ (i : Nat) (ids mask : List Int) (j : Nat),
      (bertFillLoop tok tokens i ids mask).2.getD j 0 =
        if i ≤ j ∧ j - i < tokens.length ∧ j < mask.length then 1
        else mask.getD j 0 := by
  induction tokens with
  | nil =>
    intro i ids mask j
    rw [bertFillLoop]
    simp only [List.length_nil]
    rw [if_neg (by omega)]
  | cons t rest ih =>
    intro i ids mask j
    rw [bertFillLoop]
    cases h : tok.lookupId t <;>
      · simp only [h]
        rw [ih, List.length_set, getD_set_char]
        simp only [List.length_cons]
        split_ifs <;> first | rfl | omega

/-- The Bert loop never writes `input_ids` positions below its starting
index. -/
theorem bertFillLoop_fst_getD_lt (tok : Tokenizer) (tokens : List String) :
    ∀ (i : Nat) (ids mask : List Int) (j : Nat), j < i →
      (bertFillLoop tok tokens i ids mask).1.getD j 0 = ids.getD j 0 := by
  induction tokens with
  | nil => intro i ids mask j _; rfl
  | cons t rest ih =>
    intro i ids mask j hj
    rw [bertFillLoop]
    cases h : tok.lookupId t
    case none =>
      simp only [h]
      exact ih (i + 1) _ _ j (by omega)
    case some v =>
      simp only [h]
      rw [ih (i + 1) _ _ j (by omega), getD_set_char, if_neg (by omega)]

/-- A position whose token lookup fails is never written by the Bert
loop: it keeps its initial `input_ids` value. -/
theorem bertFillLoop_fst_getD_none (tok : Tokenizer) (tokens : List String) :
    ∀ (i : Nat) (ids mask : List Int) (j : Nat), i ≤ j → j - i < tokens.length →
      tok.lookupId (tokens.getD (j - i) "") = none →
      (bertFillLoop tok tokens i ids mask).1.getD j 0 = ids.getD j 0 := by
  induction tokens with
  | nil =>
    intro i ids mask j _ h2 _
    simp only [List.length_nil] at h2
    omega
  | cons t rest ih =>
    intro i ids mask j h1 h2 h3
    rw [bertFillLoop]
    by_cases hij : j = i
    · subst hij
      simp only [Nat.sub_self, List.getD_cons_zero] at h3
      simp only [h3]
      exact bertFillLoop_fst_getD_lt tok rest (j + 1) ids (mask.set j 1) j (by omega)
    · have hj : i + 1 ≤ j := by omega
      have harg : (t :: rest).getD (j - i) "" = rest.getD (j - (i + 1)) "" := by
        have hsh : j - i = (j - (i + 1)) + 1 := by omega
        rw [hsh, List.getD_cons_succ]
      rw [harg] at h3
      have h2' : j - (i + 1) < rest.length := by
        simp only [List.length_cons] at h2
        omega
      cases h : tok.lookupId t
      · simp only [h]
        exact ih (i + 1) _ _ j hj h2' h3
      · simp only [h]
        rw [ih (i + 1) _ _ j hj h2' h3, getD_set_char, if_neg (by omega)]

theorem regexLoop_length (tok : Tokenizer) (unk : Int) (maxLen : Nat)
    (subwords : List String) :
    ∀ (idx : Nat) (arr : List Int),
      (regexLoop tok unk maxLen subwords idx arr).length = arr.length := by
  induction subwords with
  | nil => intro idx arr; rfl
  | cons t rest ih =>
    intro idx arr
    rw [regexLoop]
    by_cases h : idx < maxLen
    · rw [if_pos h]
      cases hl : tok.lookupId t <;> simp [hl, ih, List.length_set]
    · rw [if_neg h]

/-- What the Regex subword loop leaves at each position: a position `j`
reached by the loop (`idx ≤ j`, still a subword left, still below
`max_sentence_length`, in bounds) holds that subword's vocabulary id, or
`unknown_token_id` when the lookup fails; every other position keeps its
initial value. -/
theorem regexLoop_getD (tok : Tokenizer) (unk : Int) (maxLen : Nat)
    (subwords : List String) :
    ∀ (idx : Nat) (arr : List Int) (j : Nat),
      (regexLoop tok unk maxLen subwords idx arr).getD j 0 =
        if idx ≤ j ∧ j - idx < subwords.length ∧ j < maxLen ∧ j < arr.length then
          (match tok.lookupId (subwords.getD (j - idx) "") with
           | some v => v
           | none => unk)
        else arr.getD j 0 := by
  induction subwords with
  | nil =>
    intro idx arr j
    rw [regexLoop]
    simp only [List.length_nil]
    rw [if_neg (by omega)]
  | cons t rest ih =>
    intro idx arr j
    rw [regexLoop]
    by_cases hidx : idx < maxLen
    · rw [if_pos hidx]
      by_cases hij : j = idx
      · subst hij
        simp only [Nat.sub_self, List.getD_cons_zero, List.length_cons]
        cases hl : tok.lookupId t <;>
          · simp only [hl]
            rw [ih, List.length_set, if_neg (by omega), getD_set_char]
            by_cases hlen : j < arr.length
            · rw [if_pos ⟨rfl, hlen⟩, if_pos ⟨Nat.le_refl j, by omega, hidx, hlen⟩]
            · rw [if_neg (by omega), if_neg (by omega)]
      · have harg : (t :: rest).getD (j - idx) "" = rest.getD (j - (idx + 1)) "" ∨
            j < idx := by
          by_cases hlt : idx ≤ j
          · left
            have hsh : j - idx = (j - (idx + 1)) + 1 := by omega
            rw [hsh, List.getD_cons_succ]
          · right; omega
        cases hl : tok.lookupId t <;>
          · simp only [hl]
            rw [ih, List.length_set, getD_set_char]
            rcases harg with harg | hlt
            · rw [harg]
              simp only [List.length_cons]
              split_ifs <;> first | rfl | omega
            · rw [if_neg (by omega), if_neg (by omega), if_neg (by omega)]
    · rw [if_neg hidx, if_neg (by omega)]

theorem getD_replicate_of_lt (n i : Nat) (a : Int) (hi : i < n) :
    (List.replicate n a).getD i 0 = a := by
  rw [List.getD_eq_getElem?_getD, List.getElem?_replicate, if_pos hi]
  rfl

theorem getD_replicate_zero (n i : Nat) :
    (List.replicate n (0 : Int)).getD i 0 = 0 := by
  rw [List.getD_eq_getElem?_getD, List.getElem?_replicate]
  split <;> rfl

theorem bertTokens_length (tok : Tokenizer) (L : Int) (text : String) :
    (bertTokens tok L text).length =
      min (sizeTCast (L - 2)) ((tok.tokenize (asciiStrToLower text)).length) + 2 := by
  simp only [bertTokens, List.length_append, List.length_take, List.length_cons,
    List.length_nil]
  omega

theorem regexEncode_length (tok : Tokenizer) (maxLen : Nat) (text : String) :
    (regexEncode tok maxLen text).length = maxLen := by
  unfold regexEncode
  cases hstart : tok.startToken <;>
    simp [regexLoop_length, List.length_set, List.length_replicate]

/-- Positions beyond the start token and the written subwords hold the
pad id. -/
theorem regexEncode_getD_pad (tok : Tokenizer) (maxLen : Nat) (text : String)
    (j : Nat) (hj : j < maxLen)
    (hbeyond : (if tok.startToken.isSome then 1 else 0) + (tok.tokenize text).length ≤ j) :
    (regexEncode tok maxLen text).getD j 0 = tok.padToken.getD 0 := by
  unfold regexEncode
  cases hstart : tok.startToken
  · rw [hstart] at hbeyond
    simp only [Option.isSome_none, Bool.false_eq_true, if_false, Nat.zero_add] at hbeyond
    rw [regexLoop_getD, if_neg (by omega)]
    exact getD_replicate_of_lt maxLen j _ hj
  · rw [hstart] at hbeyond
    simp only [Option.isSome_some, if_true] at hbeyond
    rw [regexLoop_getD, List.length_set, if_neg (by omega), getD_set_char,
      if_neg (by omega)]
    exact getD_replicate_of_lt maxLen j _ hj

/-! ### Claim theorems -/

/-- **C1** (code bug): the claim asserts that two consecutive
`Preprocess(text)` calls on the same instance, with tokenizer and variant
unchanged, both succeed with byte-identical buffer contents.  On the
Regex variant the code violates this: `RegexPreprocess` moves `tokenizer_`
out via `release()` into a scope-local `unique_ptr`, so the first call
succeeds (filling the buffer and nulling the member) and the second call
dereferences a null tokenizer. -/
theorem C1_regex_preprocess_not_repeatable :
    Preprocess regexState0 "foo" = .ok regexState1 ∧
    Preprocess regexState1 "foo" = .error RuntimeError.nullTokenizerDeref :=
  ⟨rfl, rfl⟩

/-- **C2** (code bug): the claim asserts the preprocessor holds a non-null
tokenizer after every `Preprocess` call, destroyed only with the
preprocessor.  On the Regex variant a single successful `Preprocess`
leaves `tokenizer_` null (the local `unique_ptr` created from
`tokenizer_.release()` destroys the tokenizer when the call returns). -/
theorem C2_tokenizer_released_on_first_call :
    Preprocess regexState0 "bar" = .ok regexState1 ∧
    regexState1.tokenizer_ = none :=
  ⟨rfl, rfl⟩

/-- **C7.** For every 3-buffer (Bert) configuration whose three resolved
buffers do not all share the same last-dimension length, initialization
fails with a shape-mismatch error citing the three measured lengths (so no
such configuration yields a usable preprocessor); when the three lengths
agree, the shared value is stored as `bert_max_seq_len_`. -/
theorem C7_bert_init_shape_validation (ids_dims mask_dims segment_ids_dims : List Int) :
    (¬ (GetLastDimSize ids_dims = GetLastDimSize mask_dims ∧
        GetLastDimSize ids_dims = GetLastDimSize segment_ids_dims) →
      bertInitSeqLen ids_dims mask_dims segment_ids_dims =
        .error ⟨GetLastDimSize ids_dims, GetLastDimSize mask_dims,
                GetLastDimSize segment_ids_dims⟩) ∧
    (GetLastDimSize ids_dims = GetLastDimSize mask_dims ∧
        GetLastDimSize ids_dims = GetLastDimSize segment_ids_dims →
      bertInitSeqLen ids_dims mask_dims segment_ids_dims =
        .ok (GetLastDimSize ids_dims)) := by
  constructor
  · intro h
    unfold bertInitSeqLen
    rw [if_pos (by tauto)]
  · intro h
    unfold bertInitSeqLen
    rw [if_neg (by tauto)]

/-- Witness for C7 at the spec's example: an ids buffer of length 8 and a
mask buffer of length 6 are rejected with a shape-mismatch error citing
(8, 6, 8); three buffers of shared length 8 initialize with
`bert_max_seq_len_ = 8`. -/
theorem C7_witness :
    bertInitSeqLen [8] [6] [8] = .error ⟨8, 6, 8⟩ ∧
    bertInitSeqLen [2, 8] [8] [8] = .ok 8 :=
  ⟨(C7_bert_init_shape_validation [8] [6] [8]).1 (by decide),
   (C7_bert_init_shape_validation [2, 8] [8] [8]).2 (by decide)⟩

/-- **C8.** For a single-buffer numeric configuration: when a
regex-tokenizer options block is attached to the buffer's metadata and the
buffer's declared type is not 32-bit integer, the options-block search
fails with a type-mismatch error naming the buffer and its actual type;
when no options block is attached (or no metadata at all), the search
succeeds with an empty result. -/
theorem C8_regex_metadata_search (tensor_metadata : Option TensorMetadata)
    (findFirstProcessUnit : TensorMetadata → Except String (Option ProcessUnit))
    (input_tensor : TfLiteTensor) :
    (∀ m pu, tensor_metadata = some m → findFirstProcessUnit m = .ok (some pu) →
      input_tensor.type ≠ TfLiteType.kTfLiteInt32 →
      TryFindRegexTokenizerMetadata tensor_metadata findFirstProcessUnit input_tensor =
        .error (.typeMismatch input_tensor.name input_tensor.type)) ∧
    (∀ m, tensor_metadata = some m → findFirstProcessUnit m = .ok none →
      TryFindRegexTokenizerMetadata tensor_metadata findFirstProcessUnit input_tensor =
        .ok none) ∧
    (tensor_metadata = none →
      TryFindRegexTokenizerMetadata tensor_metadata findFirstProcessUnit input_tensor =
        .ok none) := by
  refine ⟨?_, ?_, ?_⟩
  · intro m pu hmd hff hty
    subst hmd
    simp only [TryFindRegexTokenizerMetadata, hff]
    simp [hty]
  · intro m hmd hff
    subst hmd
    simp only [TryFindRegexTokenizerMetadata, hff]
  · intro hmd
    subst hmd
    rfl

/-- A metadata block handle and a finder that locates a regex-tokenizer
options block in it. -/
def exMetadata : TensorMetadata := ⟨0⟩

def exProcessUnit : ProcessUnit := ⟨0⟩

def exFindSome : TensorMetadata → Except String (Option ProcessUnit) :=
  fun _ => .ok (some exProcessUnit)

def exFindNone : TensorMetadata → Except String (Option ProcessUnit) :=
  fun _ => .ok none

/-- A float32 input tensor, as in a plain numeric model without a regex
tokenizer. -/
def exFloatTensor : TfLiteTensor :=
  ⟨"input_text", TfLiteType.kTfLiteFloat32, [1, 5]⟩

/-- Witness for C8: with an attached options block a float32 tensor is
rejected with a type-mismatch naming the tensor and its type; without one
the search returns the empty result; with no metadata at all it also
returns the empty result. -/
theorem C8_witness :
    TryFindRegexTokenizerMetadata (some exMetadata) exFindSome exFloatTensor =
      .error (.typeMismatch "input_text" TfLiteType.kTfLiteFloat32) ∧
    TryFindRegexTokenizerMetadata (some exMetadata) exFindNone exFloatTensor =
      .ok none ∧
    TryFindRegexTokenizerMetadata none exFindSome exFloatTensor = .ok none :=
  ⟨(C8_regex_metadata_search (some exMetadata) exFindSome exFloatTensor).1
      exMetadata exProcessUnit rfl rfl (by decide),
   (C8_regex_metadata_search (some exMetadata) exFindNone exFloatTensor).2.1
      exMetadata rfl rfl,
   (C8_regex_metadata_search none exFindSome exFloatTensor).2.2 rfl⟩

/-- The `input_tokens` indices the Regex subword loop writes, mirroring
`regexLoop` one-to-one: one `input_tokens[input_token_index]` write per
iteration, with indices `input_token_index, input_token_index + 1, …`,
while subwords remain and `input_token_index < max_sentence_length`. -/
def regexLoopIndices (max_sentence_length : Nat) :
    Nat → Nat → List Nat
  | 0, _ => []
  | numSubwords + 1, input_token_index =>
    if input_token_index < max_sentence_length then
      input_token_index ::
        regexLoopIndices max_sentence_length numSubwords (input_token_index + 1)
    else []

/-- All `input_tokens` indices written by `RegexPreprocess` for a
tokenization of `numSubwords` subwords: the unconditional
`input_tokens[0] = start_token_id` write (lines 239-242) when the
tokenizer defines a start token — after which the loop starts at index 1 —
and otherwise only the loop writes starting at index 0. -/
def regexWriteIndices (hasStart : Bool) (numSubwords max_sentence_length : Nat) :
    List Nat :=
  if hasStart then 0 :: regexLoopIndices max_sentence_length numSubwords 1
  else regexLoopIndices max_sentence_length numSubwords 0

theorem regexLoopIndices_lt (maxLen : Nat) :
    ∀ (n idx i : Nat), i ∈ regexLoopIndices maxLen n idx → i < maxLen := by
  intro n
  induction n with
  | zero =>
    intro idx i h
    simp [regexLoopIndices] at h
  | succ n ih =>
    intro idx i h
    rw [regexLoopIndices] at h
    by_cases hg : idx < maxLen
    · rw [if_pos hg] at h
      rcases List.mem_cons.mp h with h | h
      · omega
      · exact ih (idx + 1) i h
    · rw [if_neg hg] at h
      simp at h

/-- **C9.** Under the precondition `2 ≤ bert_max_seq_len_` (with the value
in `int` range), every index the Bert loop writes into `input_ids` and
`input_mask` — `0 … tokens.length - 1` — is strictly below
`bert_max_seq_len_`, so all writes are in bounds.  The bound really
depends on the precondition: the kept-subword count is computed through
`static_cast<size_t>(bert_max_seq_len_ - 2)`, which wraps to `2^64 - 1`
at `bert_max_seq_len_ = 1`, and the token sequence then grows beyond the
array length (index 2 is written with arrays of length 1). -/
theorem C9_bert_write_indices_bounded (tok : Tokenizer) (L : Int)
    (input_text : String) (hL : 2 ≤ L) (h31 : L < 2 ^ 31) :
    (∀ i, i < (bertTokens tok L input_text).length → (i : Int) < L) ∧
    sizeTCast (1 - 2) = 2 ^ 64 - 1 ∧
    ¬ (∀ i, i < (bertTokens exBertTok 1 "x").length → (i : Int) < 1) := by
  refine ⟨?_, by decide, ?_⟩
  · intro i hi
    rw [bertTokens_length,
      sizeTCast_of_nonneg (by omega) (by omega)] at hi
    omega
  · intro hall
    have h2 := hall 2 (by rw [bertTokens_length]; decide)
    omega

/-- Witness for C9 at `bert_max_seq_len_ = 8`: all Bert write indices are
below 8. -/
theorem C9_witness :
    (2 : Int) ≤ 8 ∧
    (∀ i, i < (bertTokens exBertTok 8 "x").length → (i : Int) < 8) :=
  ⟨by decide,
   (C9_bert_write_indices_bounded exBertTok 8 "x" (by decide) (by decide)).1⟩

/-- **C10.** When the tokenizer defines a start token, `RegexPreprocess`
writes `input_tokens[0]` unconditionally — index 0 is among the written
indices even for a zero-length array — so `max_sentence_length ≥ 1` is a
required precondition for that write to be in bounds; under it, the start
write and all loop writes (guarded by
`input_token_index < max_sentence_length`) stay below
`max_sentence_length`. -/
theorem C10_regex_write_indices_bounded (tok : Tokenizer)
    (numSubwords max_sentence_length : Nat) (hmax : 1 ≤ max_sentence_length) :
    (∀ i ∈ regexWriteIndices tok.startToken.isSome numSubwords max_sentence_length,
      i < max_sentence_length) ∧
    (tok.startToken.isSome = true →
      0 ∈ regexWriteIndices tok.startToken.isSome numSubwords max_sentence_length) ∧
    (0 ∈ regexWriteIndices true numSubwords 0 ∧ ¬ (0 : Nat) < 0) := by
  refine ⟨?_, ?_, ?_, by omega⟩
  · intro i hi
    unfold regexWriteIndices at hi
    by_cases hs : tok.startToken.isSome
    · rw [if_pos hs] at hi
      rcases List.mem_cons.mp hi with h | h
      · omega
      · exact regexLoopIndices_lt max_sentence_length numSubwords 1 i h
    · rw [if_neg hs] at hi
      exact regexLoopIndices_lt max_sentence_length numSubwords 0 i hi
  · intro hs
    unfold regexWriteIndices
    rw [if_pos hs]
    exact List.mem_cons_self 0 _
  · unfold regexWriteIndices
    rw [if_pos rfl]
    exact List.mem_cons_self 0 _

/-- Witness for C10 with the example tokenizer (which defines a start
token), 3 subwords and sentence length 5. -/
theorem C10_witness :
    1 ≤ 5 ∧
    ∀ i ∈ regexWriteIndices exRegexTok.startToken.isSome 3 5, i < 5 :=
  ⟨by decide, (C10_regex_write_indices_bounded exRegexTok 3 5 (by decide)).1⟩

/-- The Bert-encoder layout property of C3 for tokenizer `tok`, sequence
length `L` and input `text`: with `n` subwords and
`used_length = min n (L - 2) + 2`, the token sequence is
`[CLS] + first (L - 2) subwords + [SEP]` of length `used_length ≤ L`
(excess subwords discarded, no error path), the mask is `1` strictly below
`used_length` and `0` from `used_length` up to `L`, and `segment_ids` is
the all-zero list of length `L`. -/
def BertLayoutClaim (tok : Tokenizer) (L : Int) (text : String) : Prop :=
  (bertTokens tok L text =
    [kClassificationToken] ++
      (tok.tokenize (asciiStrToLower text)).take (L.toNat - 2) ++ [kSeparator]) ∧
  ((bertTokens tok L text).length =
    min ((tok.tokenize (asciiStrToLower text)).length) (L.toNat - 2) + 2) ∧
  (min ((tok.tokenize (asciiStrToLower text)).length) (L.toNat - 2) + 2 ≤ L.toNat) ∧
  ((BertPreprocess tok L text).2.1.length = L.toNat) ∧
  (∀ i, i < L.toNat →
    (BertPreprocess tok L text).2.1.getD i 0 =
      if i < min ((tok.tokenize (asciiStrToLower text)).length) (L.toNat - 2) + 2
      then 1 else 0) ∧
  ((BertPreprocess tok L text).2.2 = List.replicate L.toNat 0)

/-- **C3.** For every input text and Bert sequence length `L ≥ 2` (in
`int` range), the encoder builds `[CLS] + min(n, L-2) subwords + [SEP]`,
truncating silently, sets the mask to `1` below `used_length` and `0`
up to `L`, and emits all-zero `segment_ids` of length `L`. -/
theorem C3_bert_encoder_layout (tok : Tokenizer) (L : Int) (text : String)
    (hL : 2 ≤ L) (h31 : L < 2 ^ 31) : BertLayoutClaim tok L text := by
  have hcast2 : sizeTCast (L - 2) = L.toNat - 2 := by
    rw [sizeTCast_of_nonneg (by omega) (by omega)]
    omega
  have hcastL : sizeTCast L = L.toNat := by
    rw [sizeTCast_of_nonneg (by omega) (by omega)]
  have hmask : (BertPreprocess tok L text).2.1 =
      (bertFillLoop tok (bertTokens tok L text) 0
        (List.replicate (sizeTCast L) 0) (List.replicate (sizeTCast L) 0)).2 := rfl
  refine ⟨?_, ?_, ?_, ?_, ?_, ?_⟩
  · unfold bertTokens
    rw [hcast2]
  · rw [bertTokens_length, hcast2]
    omega
  · omega
  · rw [hmask, bertFillLoop_snd_length, List.length_replicate, hcastL]
  · intro i hi
    rw [hmask, bertFillLoop_snd_getD, List.length_replicate, hcastL,
      bertTokens_length, hcast2, getD_replicate_zero]
    split_ifs <;> first | rfl | omega
  · show List.replicate (sizeTCast L) (0 : Int) = List.replicate L.toNat 0
    rw [hcastL]

/-- Witness for C3 at `L = 8` with a seven-subword tokenization. -/
theorem C3_witness : (2 : Int) ≤ 8 ∧ BertLayoutClaim exBertTok 8 "x" :=
  ⟨by decide, C3_bert_encoder_layout exBertTok 8 "x" (by decide) (by decide)⟩

/-- The value C4 predicts for the `k`-th real-token slot: subword `k`'s
vocabulary id, the unknown id when its lookup fails, and the pad id once
subwords have run out. -/
def regexResolveAt (tok : Tokenizer) (subwords : List String) (k : Nat) : Int :=
  if k < subwords.length then
    match tok.lookupId (subwords.getD k "") with
    | some v => v
    | none => tok.unknownToken.getD 0
  else tok.padToken.getD 0

/-- **C4.** The Regex encoder pre-fills with the pad id; a defined start
id occupies position 0 with real tokens from position 1, otherwise real
tokens start at position 0; each subword in order becomes its vocabulary
id or the unknown id, until the array is full (excess dropped silently).
In particular the spec's example — start 7, pad 3, unknown 9, length 5,
subwords `[t1, t2(unknown), t3]` — encodes to `[7, 11, 9, 13, 3]`. -/
theorem C4_regex_encoder_layout (tok : Tokenizer) (maxLen : Nat) (text : String) :
    ((regexEncode tok maxLen text).length = maxLen) ∧
    (∀ j, j < maxLen →
      (regexEncode tok maxLen text).getD j 0 =
        match tok.startToken with
        | some s =>
          if j = 0 then s else regexResolveAt tok (tok.tokenize text) (j - 1)
        | none => regexResolveAt tok (tok.tokenize text) j) ∧
    (regexEncode exRegexTok 5 "input" = [7, 11, 9, 13, 3]) := by
  refine ⟨regexEncode_length tok maxLen text, ?_, by decide⟩
  intro j hj
  cases hstart : tok.startToken
  · simp only [regexEncode, hstart]
    rw [regexLoop_getD, List.length_replicate]
    unfold regexResolveAt
    by_cases hn : j < (tok.tokenize text).length
    · rw [if_pos ⟨Nat.zero_le j, by omega, hj, hj⟩, if_pos hn, Nat.sub_zero]
    · rw [if_neg (by omega), if_neg hn]
      exact getD_replicate_of_lt maxLen j _ hj
  · simp only [regexEncode, hstart]
    rw [regexLoop_getD, List.length_set, List.length_replicate]
    by_cases hj0 : j = 0
    · subst hj0
      rw [if_neg (by omega), getD_set_char, List.length_replicate,
        if_pos ⟨rfl, hj⟩]
      rfl
    · rw [if_neg hj0]
      unfold regexResolveAt
      by_cases hn : j - 1 < (tok.tokenize text).length
      · rw [if_pos ⟨by omega, hn, hj, hj⟩, if_pos hn]
      · rw [if_neg (by omega), if_neg hn, getD_set_char, List.length_replicate,
          if_neg (by omega)]
        exact getD_replicate_of_lt maxLen j _ hj

/-- Witness for C4 at the example tokenizer, sentence length 5: the array
has length 5 and position 2 (the unknown subword `t2`) resolves through
`regexResolveAt`. -/
theorem C4_witness :
    (regexEncode exRegexTok 5 "x").length = 5 ∧
    (regexEncode exRegexTok 5 "x").getD 2 0 = 9 := by
  refine ⟨(C4_regex_encoder_layout exRegexTok 5 "x").1, ?_⟩
  have h := (C4_regex_encoder_layout exRegexTok 5 "x").2.1 2 (by decide)
  rw [h]
  rfl

/-- Counterexample to C5 as stated ("for every Regex-variant buffer of any
rank, the array length equals the size of the buffer shape's last
dimension"): for a rank-3 buffer of shape `[4, 5, 6]`, lines 226-228 take
`dims->data[0] = 4` — the first dimension — as sentence length, while the
last dimension is 6; the produced array has length 4 ≠ 6. -/
theorem C5_counterexample :
    ¬ ((regexEncode exRegexTok (maxSentenceLength [4, 5, 6]) "x").length =
        sizeTCast (GetLastDimSize [4, 5, 6])) := by
  decide

/-- **C5 (amended).** For Regex buffers of rank 1 or 2, one `Preprocess`
call produces an array whose length equals the size of the buffer shape's
last dimension; for buffers of rank 3 or more the source instead uses
`dims->data[0]` — the first dimension — as the sequence length.  In all
cases every position beyond the start token and the written subwords
holds the pad id. -/
theorem C5_regex_output_length (dims : List Int) (tok : Tokenizer)
    (text : String) :
    (dims.length = 1 ∨ dims.length = 2 →
      (regexEncode tok (maxSentenceLength dims) text).length =
        sizeTCast (GetLastDimSize dims)) ∧
    (3 ≤ dims.length →
      (regexEncode tok (maxSentenceLength dims) text).length =
        sizeTCast (dims.getD 0 0)) ∧
    (∀ j, j < maxSentenceLength dims →
      (if tok.startToken.isSome then 1 else 0) + (tok.tokenize text).length ≤ j →
      (regexEncode tok (maxSentenceLength dims) text).getD j 0 =
        tok.padToken.getD 0) := by
  refine ⟨?_, ?_, ?_⟩
  · intro hrank
    rw [regexEncode_length]
    unfold maxSentenceLength GetLastDimSize
    rcases hrank with h | h <;> rw [h] <;> simp
  · intro hrank
    rw [regexEncode_length]
    unfold maxSentenceLength
    rw [if_neg (by omega)]
  · intro j hj hb
    exact regexEncode_getD_pad tok _ text j hj hb

/-- Witness for C5 (amended): at a rank-2 buffer of shape `[1, 5]` the
array length is the last dimension 5 and position 4 — past the start
token and three subwords — holds the pad id 3; at a rank-3 buffer of
shape `[4, 5, 6]` the array length is the first dimension 4. -/
theorem C5_witness :
    (([1, 5] : List Int).length = 1 ∨ ([1, 5] : List Int).length = 2) ∧
    (regexEncode exRegexTok (maxSentenceLength [1, 5]) "x").length =
      sizeTCast (GetLastDimSize [1, 5]) ∧
    3 ≤ ([4, 5, 6] : List Int).length ∧
    (regexEncode exRegexTok (maxSentenceLength [4, 5, 6]) "x").length =
      sizeTCast (([4, 5, 6] : List Int).getD 0 0) ∧
    (regexEncode exRegexTok (maxSentenceLength [1, 5]) "x").getD 4 0 = 3 := by
  refine ⟨Or.inr rfl,
    (C5_regex_output_length [1, 5] exRegexTok "x").1 (Or.inr rfl),
    by decide,
    (C5_regex_output_length [4, 5, 6] exRegexTok "x").2.1 (by decide), ?_⟩
  have h := (C5_regex_output_length [1, 5] exRegexTok "x").2.2
    4 (by decide) (by decide)
  rw [h]
  rfl

/-- **C6.** A failed vocabulary lookup never raises an error in either
encoder: in Bert the `ids` position keeps the default 0 (it is not
replaced by the unknown id), in Regex the position receives the unknown
id, and a `Preprocess` call on a preprocessor whose tokenizer is present
always succeeds. -/
theorem C6_failed_lookup_tolerated (tok : Tokenizer) (L : Int) (maxLen : Nat)
    (text : String) :
    (∀ i, i < (bertTokens tok L text).length →
      tok.lookupId ((bertTokens tok L text).getD i "") = none →
      (BertPreprocess tok L text).1.getD i 0 = 0) ∧
    (tok.startToken = none → ∀ j, j < (tok.tokenize text).length → j < maxLen →
      tok.lookupId ((tok.tokenize text).getD j "") = none →
      (regexEncode tok maxLen text).getD j 0 = tok.unknownToken.getD 0) ∧
    (∀ s0, tok.startToken = some s0 → ∀ j, 1 ≤ j →
      j - 1 < (tok.tokenize text).length → j < maxLen →
      tok.lookupId ((tok.tokenize text).getD (j - 1) "") = none →
      (regexEncode tok maxLen text).getD j 0 = tok.unknownToken.getD 0) ∧
    (∀ s : PreprocessorState, s.tokenizer_.isSome = true →
      ∃ s', Preprocess s text = Except.ok s') := by
  refine ⟨?_, ?_, ?_, ?_⟩
  · intro i hi hnone
    have hids : (BertPreprocess tok L text).1 =
        (bertFillLoop tok (bertTokens tok L text) 0
          (List.replicate (sizeTCast L) 0) (List.replicate (sizeTCast L) 0)).1 := rfl
    rw [hids,
      bertFillLoop_fst_getD_none tok (bertTokens tok L text) 0 _ _ i
        (Nat.zero_le i) (by omega) (by simpa using hnone),
      getD_replicate_zero]
  · intro hstart j h1 h2 h3
    simp only [regexEncode, hstart]
    rw [regexLoop_getD, List.length_replicate,
      if_pos ⟨Nat.zero_le j, by omega, h2, h2⟩, Nat.sub_zero, h3]
  · intro s0 hstart j h1 h2 h3 h4
    simp only [regexEncode, hstart]
    rw [regexLoop_getD, List.length_set, List.length_replicate,
      if_pos ⟨h1, h2, h3, h3⟩, h4]
  · intro s hs
    obtain ⟨tk, htk⟩ := Option.isSome_iff_exists.mp hs
    cases hty : s.tokenzier_type_
    · exact ⟨{ s with string_buf := text }, by simp only [Preprocess, hty]⟩
    · refine ⟨{ s with
        tokenizer_ := none,
        regex_buf := regexEncode tk (maxSentenceLength s.regex_dims) text }, ?_⟩
      simp only [Preprocess, hty, RegexPreprocessSt, htk]
    · refine ⟨{ s with
        ids_buf := (BertPreprocess tk s.bert_max_seq_len_ text).1,
        mask_buf := (BertPreprocess tk s.bert_max_seq_len_ text).2.1,
        segment_ids_buf := (BertPreprocess tk s.bert_max_seq_len_ text).2.2 }, ?_⟩
      simp only [Preprocess, hty, BertPreprocessSt, htk]

/-- Witness for C6: in Bert at `L = 8` the unknown subword `b` (position
2 of the token sequence) leaves `ids[2] = 0`; in Regex the unknown
subword `t2` (position 2 after the start token) becomes the unknown id 9;
and a `Preprocess` call with the tokenizer present succeeds. -/
theorem C6_witness :
    (BertPreprocess exBertTok 8 "x").1.getD 2 0 = 0 ∧
    (regexEncode exRegexTok 5 "x").getD 2 0 = 9 ∧
    ∃ s', Preprocess regexState0 "x" = Except.ok s' := by
  refine ⟨?_, ?_, ?_⟩
  · exact (C6_failed_lookup_tolerated exBertTok 8 5 "x").1 2 (by decide) (by decide)
  · exact (C6_failed_lookup_tolerated exRegexTok 0 5 "x").2.2.1 7 rfl 2
      (by decide) (by decide) (by decide) (by decide)
  · exact (C6_failed_lookup_tolerated exRegexTok 0 5 "x").2.2.2 regexState0 rfl
